import Mathlib

/-!
Verification development for the NPS context-enrichment pipeline
(src/main.py).  The Python pipeline is shallowly embedded: pure pandas
column transformations become Lean functions over lists, machine dates
become a calendar record with exact integer arithmetic, and external
inputs (ephemeris longitudes, the holiday library, the timezonefinder
lookup, data files) become explicit parameters.  Each embedded
definition carries a comment naming the source construct it models.
-/

namespace NpsCtx

/- Section ======================================================
   Calendar dates.  `CalDate` models a timezone-naive pandas date
   (year, month, day).  `rataDays` is the standard civil-to-day-count
   conversion, used only to obtain the weekday exactly as
   `pandas.DatetimeIndex.dayofweek` (Monday = 0) reports it.
   ============================================================ -/

structure CalDate where
  y : Nat
  m : Nat
  d : Nat
deriving DecidableEq

def isLeap (y : Nat) : Bool :=
  (y % 4 == 0 && y % 100 != 0) || y % 400 == 0

def daysInMonth (y m : Nat) : Nat :=
  if m = 2 then (if isLeap y then 29 else 28)
  else if m = 4 ∨ m = 6 ∨ m = 9 ∨ m = 11 then 30
  else 31

/-- Days since 0000-03-01 (Gregorian, proleptic); standard civil formula. -/
def rataDays (dt : CalDate) : Nat :=
  let yy := dt.y - (if dt.m ≤ 2 then 1 else 0)
  let era := yy / 400
  let yoe := yy % 400
  let mp := if 2 < dt.m then dt.m - 3 else dt.m + 9
  let doy := (153 * mp + 2) / 5 + (dt.d - 1)
  let doe := yoe * 365 + yoe / 4 - yoe / 100 + doy
  era * 146097 + doe

/-- Weekday with Monday = 0, as `pandas .dt.dayofweek` reports it. -/
def pdWeekday (dt : CalDate) : Nat :=
  (rataDays dt + 2) % 7

def nextDay (dt : CalDate) : CalDate :=
  if dt.d < daysInMonth dt.y dt.m then ⟨dt.y, dt.m, dt.d + 1⟩
  else if dt.m < 12 then ⟨dt.y, dt.m + 1, 1⟩
  else ⟨dt.y + 1, 1, 1⟩

def prevDay (dt : CalDate) : CalDate :=
  if 1 < dt.d then ⟨dt.y, dt.m, dt.d - 1⟩
  else if 1 < dt.m then ⟨dt.y, dt.m - 1, daysInMonth dt.y (dt.m - 1)⟩
  else ⟨dt.y - 1, 12, 31⟩

def addDays (dt : CalDate) : Nat → CalDate
  | 0 => dt
  | n + 1 => addDays (nextDay dt) n

/- Section ======================================================
   Timestamps and timezones.  A business timestamp is naive and, per
   `enrich_data_full`, localized to Europe/Moscow, so we store it as
   Moscow wall-clock (date, hour).  `tzOffset` is modelled from the
   IANA tz database (fixed UTC offsets; Russian zones have no DST).
   ============================================================ -/

structure MskDateTime where
  date : CalDate
  hour : Nat
deriving DecidableEq

/-- Modelled from the IANA tz database (external to the repository):
whole-hour UTC offsets of the zones appearing in `RU_TZ_BY_REGION`. -/
def tzOffset (tz : String) : Int :=
  if tz = "Europe/Kaliningrad" then 2
  else if tz = "Europe/Moscow" ∨ tz = "Europe/Volgograd" then 3
  else if tz = "Europe/Samara" ∨ tz = "Europe/Astrakhan" ∨ tz = "Europe/Saratov"
          ∨ tz = "Europe/Ulyanovsk" then 4
  else if tz = "Asia/Yekaterinburg" then 5
  else if tz = "Asia/Omsk" then 6
  else if tz = "Asia/Novosibirsk" ∨ tz = "Asia/Tomsk" ∨ tz = "Asia/Novokuznetsk"
          ∨ tz = "Asia/Barnaul" ∨ tz = "Asia/Krasnoyarsk" then 7
  else if tz = "Asia/Irkutsk" then 8
  else if tz = "Asia/Chita" ∨ tz = "Asia/Yakutsk" then 9
  else if tz = "Asia/Vladivostok" then 10
  else if tz = "Asia/Sakhalin" ∨ tz = "Asia/Magadan" then 11
  else if tz = "Asia/Kamchatka" then 12
  else 3

/-- Source `msk_day`: `base_msk.dt.normalize()` of the Moscow-localized
timestamp (src/main.py line 1124). -/
def mskDayOf (t : MskDateTime) : CalDate := t.date

/-- Source `day_local`: the Moscow instant converted to the resolved zone and
normalized (src/main.py lines 1126-1130).  Offsets differ from Moscow
by -1 to +9 hours, so for hours in [0, 24) at most one day boundary is
crossed. -/
def localDay (t : MskDateTime) (tz : String) : CalDate :=
  let h : Int := (t.hour : Int) + (tzOffset tz - 3)
  if h < 0 then prevDay t.date
  else if 24 ≤ h then nextDay t.date
  else t.date

/- Section ======================================================
   Region dictionaries (src/main.py: REGION_GENT_TO_NOM and
   RU_TZ_BY_REGION, transcribed in full) and the resolver
   `region_to_tz`.  The optional timezonefinder lookup is an external
   input and becomes the parameter `tfResult`.
   ============================================================ -/

def REGION_GENT_TO_NOM : List (String × String) := [
  ("Московской области", "Московская область"), ("Ленинградской области", "Ленинградская область"),
  ("Республике Татарстан", "Республика Татарстан"), ("Свердловской области", "Свердловская область"),
  ("Краснодарском крае", "Краснодарский край"), ("Ростовской области", "Ростовская область"),
  ("Новосибирской области", "Новосибирская область"), ("Красноярском крае", "Красноярский край"),
  ("Воронежской области", "Воронежская область"), ("Самарской области", "Самарская область"),
  ("Пермском крае", "Пермский край"), ("Нижегородской области", "Нижегородская область"),
  ("Саратовской области", "Саратовская область"), ("Иркутской области", "Иркутская область"),
  ("Челябинской области", "Челябинская область"), ("Алтайском крае", "Алтайский край"),
  ("Республике Башкортостан", "Республика Башкортостан"), ("Кемеровской области", "Кемеровская область — Кузбасс"),
  ("Оренбургской области", "Оренбургская область"), ("Ставропольском крае", "Ставропольский край"),
  ("Приморском крае", "Приморский край"), ("Хабаровском крае", "Хабаровский край"),
  ("Калининградской области", "Калининградская область"), ("Тюменской области", "Тюменская область"),
  ("Ханты-Мансийском АО", "Ханты-Мансийский автономный округ — Югра"), ("Орловской области", "Орловская область"),
  ("Республике Карелия", "Республика Карелия"), ("Удмуртской Республике", "Удмуртская Республика"),
  ("Волгоградской области", "Волгоградская область"), ("Республике Дагестан", "Республика Дагестан"),
  ("Ярославской области", "Ярославская область"), ("Тверской области", "Тверская область"),
  ("Архангельской области", "Архангельская область"), ("Омской области", "Омская область"),
  ("Республике Бурятия", "Республика Бурятия"), ("Республике Саха (Якутия)", "Республика Саха (Якутия)"),
  ("Республике Мордовия", "Республика Мордовия"), ("Ивановской области", "Ивановская область"),
  ("Белгородской области", "Белгородская область"), ("Тульской области", "Тульская область"),
  ("Забайкальском крае", "Забайкальский край"), ("Владимирской области", "Владимирская область"),
  ("Тамбовской области", "Тамбовская область"), ("Пензенской области", "Пензенская область"),
  ("Ульяновской области", "Ульяновская область"), ("Вологодской области", "Вологодская область"),
  ("Кировской области", "Кировская область"), ("Брянской области", "Брянская область"),
  ("Чеченской республике", "Чеченская Республика"), ("Липецкой области", "Липецкая область"),
  ("Чувашской Республике", "Чувашская Республика"), ("Курской области", "Курская область"),
  ("Рязанской области", "Рязанская область"), ("Калужской области", "Калужская область"),
  ("Томской области", "Томская область"), ("Смоленской области", "Смоленская область"),
  ("Астраханской области", "Астраханская область"), ("Республике Коми", "Республика Коми"),
  ("Курганской области", "Курганская область"), ("Мурманской области", "Мурманская область"),
  ("Амурской области", "Амурская область"), ("Кабардино-Балкарской Республике", "Кабардино-Балкарская Республика"),
  ("Республике Марий Эл", "Республика Марий Эл"), ("Псковской области", "Псковская область"),
  ("Новгородской области", "Новгородская область"), ("Костромской области", "Костромская область"),
  ("Ямало-Ненецком АО", "Ямало-Ненецкий автономный округ"), ("Северной Осетии-Алании", "Республика Северная Осетия — Алания"),
  ("Республике Хакасия", "Республика Хакасия"), ("Сахалинской области", "Сахалинская область"),
  ("Карачаево-Черкесской Республике", "Карачаево-Черкесская Республика"), ("Республике Ингушетия", "Ингушетия"),
  ("Камчатском крае", "Камчатский край"), ("Республике Тыва", "Республика Тыва"),
  ("Республике Калмыкия", "Республика Калмыкия"), ("Республике Алтай", "Республика Алтай"),
  ("Магаданской области", "Магаданская область")]

def RU_TZ_BY_REGION : List (String × String) := [
  ("Москва", "Europe/Moscow"), ("Санкт-Петербург", "Europe/Moscow"), ("Калининградская область", "Europe/Kaliningrad"),
  ("Московская область", "Europe/Moscow"), ("Ленинградская область", "Europe/Moscow"), ("Республика Карелия", "Europe/Moscow"),
  ("Республика Коми", "Europe/Moscow"), ("Архангельская область", "Europe/Moscow"), ("Мурманская область", "Europe/Moscow"),
  ("Вологодская область", "Europe/Moscow"), ("Новгородская область", "Europe/Moscow"), ("Псковская область", "Europe/Moscow"),
  ("Тверская область", "Europe/Moscow"), ("Ярославская область", "Europe/Moscow"), ("Костромская область", "Europe/Moscow"),
  ("Ивановская область", "Europe/Moscow"), ("Владимирская область", "Europe/Moscow"), ("Рязанская область", "Europe/Moscow"),
  ("Тульская область", "Europe/Moscow"), ("Калужская область", "Europe/Moscow"), ("Смоленская область", "Europe/Moscow"),
  ("Брянская область", "Europe/Moscow"), ("Орловской области", "Europe/Moscow"), ("Курская область", "Europe/Moscow"),
  ("Белгородская область", "Europe/Moscow"), ("Воронежская область", "Europe/Moscow"), ("Липецкая область", "Europe/Moscow"),
  ("Тамбовская область", "Europe/Moscow"), ("Нижегородская область", "Europe/Moscow"), ("Кировская область", "Europe/Moscow"),
  ("Пензенская область", "Europe/Moscow"), ("Республика Мордовия", "Europe/Moscow"), ("Республика Марий Эл", "Europe/Moscow"),
  ("Чувашская Республика", "Europe/Moscow"), ("Республика Татарстан", "Europe/Moscow"), ("Республика Калмыкия", "Europe/Moscow"),
  ("Ростовская область", "Europe/Moscow"), ("Краснодарский край", "Europe/Moscow"), ("Ставропольский край", "Europe/Moscow"),
  ("Ингушетия", "Europe/Moscow"), ("Кабардино-Балкарская Республика", "Europe/Moscow"), ("Карачаево-Черкесская Республика", "Europe/Moscow"),
  ("Республика Северная Осетия — Алания", "Europe/Moscow"), ("Чеченская Республика", "Europe/Moscow"), ("Республика Дагестан", "Europe/Moscow"),
  ("Волгоградская область", "Europe/Volgograd"), ("Самарская область", "Europe/Samara"), ("Удмуртская Республика", "Europe/Samara"),
  ("Астраханская область", "Europe/Astrakhan"), ("Саратовская область", "Europe/Saratov"), ("Ульяновская область", "Europe/Ulyanovsk"),
  ("Республика Башкортостан", "Asia/Yekaterinburg"), ("Пермский край", "Asia/Yekaterinburg"), ("Свердловская область", "Asia/Yekaterinburg"),
  ("Челябинская область", "Asia/Yekaterinburg"), ("Курганская область", "Asia/Yekaterinburg"), ("Тюменская область", "Asia/Yekaterinburg"),
  ("Ханты-Мансийский автономный округ — Югра", "Asia/Yekaterinburg"), ("Ямало-Ненецкий автономный округ", "Asia/Yekaterinburg"),
  ("Оренбургская область", "Asia/Yekaterinburg"), ("Омская область", "Asia/Omsk"), ("Новосибирская область", "Asia/Novosibirsk"),
  ("Томская область", "Asia/Tomsk"), ("Кемеровская область — Кузбасс", "Asia/Novokuznetsk"), ("Алтайский край", "Asia/Barnaul"),
  ("Республика Алтай", "Asia/Barnaul"), ("Красноярский край", "Asia/Krasnoyarsk"), ("Республика Хакасия", "Asia/Krasnoyarsk"),
  ("Республика Тыва", "Asia/Krasnoyarsk"), ("Иркутская область", "Asia/Irkutsk"), ("Республика Бурятия", "Asia/Irkutsk"),
  ("Забайкальский край", "Asia/Chita"), ("Амурская область", "Asia/Yakutsk"), ("Республика Саха (Якутия)", "Asia/Yakutsk"),
  ("Приморский край", "Asia/Vladivostok"), ("Хабаровский край", "Asia/Vladivostok"), ("Сахалинская область", "Asia/Sakhalin"),
  ("Магаданская область", "Asia/Magadan"), ("Камчатский край", "Asia/Kamchatka")]

def assocFind (xs : List (String × String)) (k : String) : Option String :=
  match xs with
  | [] => none
  | p :: rest => if p.1 = k then some p.2 else assocFind rest k

/-- Source `df['region_std'] = df[region_col].map(REGION_GENT_TO_NOM).fillna(df[region_col])`
(src/main.py line 1114). -/
def regionStd (region : String) : String :=
  (assocFind REGION_GENT_TO_NOM region).getD region

/-- Source `region_to_tz` (src/main.py lines 234-244).  `tfResult` is the
composite outcome of the optional timezonefinder lookup at the region
first reference coordinate: `none` when the library is unavailable,
the region has no coordinates, or the lookup returns nothing. -/
def regionToTz (tfResult : String → Option String) (region : String) : String :=
  match tfResult region with
  | some tz => tz
  | none => (assocFind RU_TZ_BY_REGION region).getD "Europe/Moscow"

/- Section ======================================================
   Orchestrator head (src/main.py lines 1110-1130): region
   canonicalization, timezone resolution, msk_day and day_local.
   ============================================================ -/

structure InRec where
  region : String
  bdt : MskDateTime
deriving DecidableEq

structure CoreRec where
  regionStdF : String
  tzF : String
  msk : CalDate
  loc : CalDate
deriving DecidableEq

def coreOf (tfResult : String → Option String) (r : InRec) : CoreRec :=
  let rs := regionStd r.region
  let tz := regionToTz tfResult rs
  ⟨rs, tz, mskDayOf r.bdt, localDay r.bdt tz⟩

/- Section ======================================================
   Calendar Engine, vectorized per-date features
   (`add_calendar_compact_features`, src/main.py lines 355-377 and
   438-457).  Line 357 selects the date column the features are
   computed from: `msk_day` when present, else `day_local`.
   ============================================================ -/

/-- Line 357: `d = out[date_col_msk] if date_col_msk in out.columns else out[date_col_local]`. -/
def calChosen (hasMskColumn : Bool) (c : CoreRec) : CalDate :=
  if hasMskColumn then c.msk else c.loc

/-- Source `map_weekday_bucket` (lines 358-364). -/
def weekdayBucket (wd : Nat) : String :=
  if wd ≤ 2 then "пн-ср" else if wd ≤ 4 then "чт-пт" else if wd = 5 then "сб" else "вс"

/-- Source `month_phase` (lines 369-374). -/
def monthPhase (day : Nat) : String :=
  if day ≤ 10 then "начало" else if day ≤ 20 then "середина" else "конец"

/-- Quarter mapping (line 376). -/
def quarterOf (m : Nat) : String :=
  if m ≤ 3 then "Q1" else if m ≤ 6 then "Q2" else if m ≤ 9 then "Q3" else "Q4"

/-- Season mapping (line 377). -/
def seasonOf (m : Nat) : String :=
  if m = 12 ∨ m ≤ 2 then "Зима"
  else if m ≤ 5 then "Весна"
  else if m ≤ 8 then "Лето"
  else "Осень"

/-- Week of month (lines 366-368): `1 + ((day + weekday(first_of_month) - 1) // 7)`
clipped to [1, 5], rendered as `W{n}`. -/
def weekOfMonth (dt : CalDate) : String :=
  let wdFirst := pdWeekday ⟨dt.y, dt.m, 1⟩
  let wom := 1 + (dt.d + wdFirst - 1) / 7
  let womClip := max 1 (min 5 wom)
  "W" ++ Nat.repr womClip

/-- Source `school_break_ext` (lines 438-445). -/
def schoolBreakExt (dt : CalDate) : String :=
  if dt.m = 1 ∧ dt.d ≤ 9 then "зима"
  else if dt.m = 3 ∧ 25 ≤ dt.d then "весна"
  else if (dt.m = 10 ∧ 26 ≤ dt.d) ∨ (dt.m = 11 ∧ dt.d ≤ 4) then "осень"
  else if dt.m = 6 ∨ dt.m = 7 ∨ dt.m = 8 then "лето"
  else "нет"

/-- Source `payday_prox_cat` of the minimal wrapped distance to the 10th or
25th (lines 447-457). -/
def paydayProximity (dt : CalDate) : String :=
  let day : Int := (dt.d : Int)
  let dim : Int := (daysInMonth dt.y dt.m : Int)
  let dist10 := min (day - 10).natAbs (day - 10 - dim).natAbs
  let dist25 := min (day - 25).natAbs (day - 25 - dim).natAbs
  let dv := min dist10 dist25
  if dv = 0 then "день выплаты"
  else if dv ≤ 2 then "рядом (±2 дня)"
  else if dv ≤ 7 then "неделя до/после"
  else "далеко"

def calWeekday4F (hasMsk : Bool) (c : CoreRec) : String :=
  weekdayBucket (pdWeekday (calChosen hasMsk c))

def calWeekOfMonthF (hasMsk : Bool) (c : CoreRec) : String :=
  weekOfMonth (calChosen hasMsk c)

def calMonthPhase3F (hasMsk : Bool) (c : CoreRec) : String :=
  monthPhase (calChosen hasMsk c).d

def calQuarterF (hasMsk : Bool) (c : CoreRec) : String :=
  quarterOf (calChosen hasMsk c).m

def calSeasonF (hasMsk : Bool) (c : CoreRec) : String :=
  seasonOf (calChosen hasMsk c).m

def calSchoolBreakF (hasMsk : Bool) (c : CoreRec) : String :=
  schoolBreakExt (calChosen hasMsk c)

def calPaydayF (hasMsk : Bool) (c : CoreRec) : String :=
  paydayProximity (calChosen hasMsk c)

/-- The tuple of the date-vectorized calendar features of one record. -/
def calFeatsF (hasMsk : Bool) (c : CoreRec) : List String :=
  [calWeekday4F hasMsk c, calWeekOfMonthF hasMsk c, calMonthPhase3F hasMsk c,
   calQuarterF hasMsk c, calSeasonF hasMsk c, calSchoolBreakF hasMsk c,
   calPaydayF hasMsk c]

/- Concrete inputs used by the calendar claims. -/

/-- Timezonefinder outcome when the optional library is unavailable. -/
def tfNone : String → Option String := fun _ => none

/-- The spec end-to-end record: region in genitive case, business
timestamp 2024-03-20T15:00:00 (naive, treated as Moscow wall clock). -/
def specRec : InRec := ⟨"Московской области", ⟨⟨2024, 3, 20⟩, 15⟩⟩

/-- A Kamchatka record at 2024-03-10 20:00 Moscow time: local day is
2024-03-11 (UTC+12 is 9 hours ahead of Moscow), Moscow day 2024-03-10. -/
def c4rA : InRec := ⟨"Камчатском крае", ⟨⟨2024, 3, 10⟩, 20⟩⟩

/-- A Moscow-region record at 2024-03-11 12:00 Moscow time: local day
and Moscow day both 2024-03-11. -/
def c4rB : InRec := ⟨"Московской области", ⟨⟨2024, 3, 11⟩, 12⟩⟩

def c4w1 : CoreRec := ⟨"Московская область", "Europe/Moscow", ⟨2024, 3, 11⟩, ⟨2024, 3, 11⟩⟩

def c4w2 : CoreRec := ⟨"Камчатский край", "Asia/Kamchatka", ⟨2024, 3, 11⟩, ⟨2024, 3, 12⟩⟩

/-- C4 counterexample: the calendar features are NOT a function of
`day_local`.  The two concrete pipeline records `c4rA` and `c4rB`
share `day_local` = 2024-03-11 but have Moscow days 2024-03-10 and
2024-03-11, and src/main.py line 357 computes the features from the
`msk_day` column when it is present (it always is in the pipeline), so
their `cal_month_phase3` values differ ("начало" vs "середина"). -/
theorem c4_counterexample :
    ¬ (∀ r1 r2 : InRec, (coreOf tfNone r1).loc = (coreOf tfNone r2).loc →
        calFeatsF true (coreOf tfNone r1) = calFeatsF true (coreOf tfNone r2)) := by
  intro h
  exact absurd (h c4rA c4rB (by decide)) (by decide)

/-- C4 amended: every date-vectorized calendar feature of a record is
a function of the record Moscow calendar day `msk_day` (the per-date
calendar table is built over, and joined back by, the `msk_day`
column, src/main.py lines 357 and 421-424). -/
theorem c4_amended (c1 c2 : CoreRec) (h : c1.msk = c2.msk) :
    calFeatsF true c1 = calFeatsF true c2 := by
  simp [calFeatsF, calWeekday4F, calWeekOfMonthF, calMonthPhase3F, calQuarterF,
    calSeasonF, calSchoolBreakF, calPaydayF, calChosen, h]

/-- Witness for `c4_amended` at two concrete records sharing a Moscow
day (but with different local days and regions). -/
theorem c4_amended_witness :
    c4w1.msk = c4w2.msk ∧ calFeatsF true c4w1 = calFeatsF true c4w2 :=
  ⟨by decide, c4_amended c4w1 c4w2 (by decide)⟩

/-- C6 counterexample: the end-to-end claim for the record
("Московской области", 2024-03-20T15:00:00) fails, because the code
assigns `cal_month_phase3` = "середина" for day 20 (`month_phase`,
src/main.py lines 369-374: day 20 falls in the `day <= 20` branch),
not "конец" as claimed. -/
theorem c6_counterexample :
    ¬ ((coreOf tfNone specRec).regionStdF = "Московская область" ∧
       (coreOf tfNone specRec).tzF = "Europe/Moscow" ∧
       (coreOf tfNone specRec).msk = ⟨2024, 3, 20⟩ ∧
       (coreOf tfNone specRec).loc = ⟨2024, 3, 20⟩ ∧
       calSeasonF true (coreOf tfNone specRec) = "Весна" ∧
       calMonthPhase3F true (coreOf tfNone specRec) = "конец") := by
  decide

/-- C6 amended: same end-to-end scenario with the value the code
actually produces for `cal_month_phase3`, namely "середина" (the
timezone here is resolved through the static fallback table, the path
taken when the optional timezonefinder library is absent). -/
theorem c6_amended :
    (coreOf tfNone specRec).regionStdF = "Московская область" ∧
    (coreOf tfNone specRec).tzF = "Europe/Moscow" ∧
    (coreOf tfNone specRec).msk = ⟨2024, 3, 20⟩ ∧
    (coreOf tfNone specRec).loc = ⟨2024, 3, 20⟩ ∧
    calSeasonF true (coreOf tfNone specRec) = "Весна" ∧
    calMonthPhase3F true (coreOf tfNone specRec) = "середина" := by
  decide

/- Section ======================================================
   Calendar Engine, long-weekend flag
   (`add_calendar_compact_features`, src/main.py lines 411-420).
   The holiday table produced by the external `holidays` library is
   the parameter `isHol`; the calendar range is the `n` consecutive
   dates from `start`.  Position `i` stands for date `addDays start i`.
   ============================================================ -/

/-- Source `is_nonwork = np.maximum(is_weekend, is_holiday)` at position `i`
(lines 411-412): weekend is `dayofweek >= 5`. -/
def nonworkFlag (start : CalDate) (isHol : CalDate → Bool) (i : Nat) : Nat :=
  if 5 ≤ pdWeekday (addDays start i) ∨ isHol (addDays start i) = true then 1 else 0

/-- The `is_nonwork` column over the whole calendar range. -/
def nonworkFlags (start : CalDate) (n : Nat) (isHol : CalDate → Bool) : List Nat :=
  (List.range n).map (nonworkFlag start isHol)

def flagsGet (xs : List Nat) (i : Nat) : Nat := xs.getD i 0

/-- Source `end3 = is_nonwork.rolling(3, min_periods=3).sum().eq(3)` (line
413): true iff position `i` has two predecessors and the three flags
ending at `i` sum to 3. -/
def end3 (xs : List Nat) (i : Nat) : Bool :=
  decide (2 ≤ i) && decide (flagsGet xs (i - 2) + flagsGet xs (i - 1) + flagsGet xs i = 3)

/-- Source `long_any = end3 | end3.shift(1, fill_value=False) | end3.shift(2, fill_value=False)`
(line 414). -/
def longAny (xs : List Nat) (i : Nat) : Bool :=
  end3 xs i || (decide (1 ≤ i) && end3 xs (i - 1)) || (decide (2 ≤ i) && end3 xs (i - 2))

/-- Source `cal_long_weekend` label at position `i` (line 415). -/
def longWeekendFlag (xs : List Nat) (i : Nat) : String :=
  if longAny xs i then "да" else "нет"

/-- Modelled from the spec words (refinement comparison only): "some
contiguous 3-day window containing the date is entirely non-working" —
a window start `j` within the range with `j ≤ i ≤ j + 2` and all three
flags equal to 1. -/
def specWindowContaining (xs : List Nat) (i : Nat) : Bool :=
  (List.range xs.length).any (fun j =>
    decide (j + 2 < xs.length) && decide (j ≤ i) && decide (i ≤ j + 2) &&
    decide (flagsGet xs j = 1) && decide (flagsGet xs (j + 1) = 1) &&
    decide (flagsGet xs (j + 2) = 1))

/-- Concrete calendar range: 2024-01-06 (a Saturday) through
2024-01-10, with 2024-01-08 a holiday; non-working flags [1,1,1,0,0]. -/
def c3Flags : List Nat :=
  nonworkFlags ⟨2024, 1, 6⟩ 5 (fun dt => decide (dt = ⟨2024, 1, 8⟩))

/-- C3 counterexample: on the range starting Saturday 2024-01-06 with
Monday 2024-01-08 a holiday, the date 2024-01-06 (position 0) sits
inside the fully non-working window Jan 6-8, yet the code flags it
"нет": the code only flags positions where a 3-day non-working window
ENDS at the position or at one of the two previous positions
(src/main.py line 414 shifts `end3` forward, not backward). -/
theorem c3_counterexample :
    ¬ (longWeekendFlag c3Flags 0 = "да" ↔ specWindowContaining c3Flags 0 = true) := by
  decide

/-- C3 amended: for every calendar range and every position `i` in it,
`cal_long_weekend` is "да" iff some contiguous 3-day window that is
entirely non-working ends at `i` or at one of the two positions before
`i` (equivalently: `i` lies at most 2 days after the end of such a
window), rather than any window merely containing `i`. -/
theorem c3_amended (start : CalDate) (n : Nat) (isHol : CalDate → Bool) (i : Nat)
    (hi : i < n) :
    longWeekendFlag (nonworkFlags start n isHol) i = "да" ↔
    ∃ j, 2 ≤ j ∧ j ≤ i ∧ i ≤ j + 2 ∧
      nonworkFlag start isHol (j - 2) = 1 ∧ nonworkFlag start isHol (j - 1) = 1 ∧
      nonworkFlag start isHol j = 1 := by
  have hval : ∀ k, nonworkFlag start isHol k = 0 ∨ nonworkFlag start isHol k = 1 := by
    intro k; unfold nonworkFlag; split <;> simp
  have hget : ∀ k, k < n → flagsGet (nonworkFlags start n isHol) k = nonworkFlag start isHol k := by
    intro k hk
    simp [flagsGet, nonworkFlags, List.getD_eq_getElem?_getD, List.getElem?_map,
      List.getElem?_range hk]
  have hend : ∀ j, j ≤ i → (end3 (nonworkFlags start n isHol) j = true ↔
      (2 ≤ j ∧ nonworkFlag start isHol (j - 2) = 1 ∧ nonworkFlag start isHol (j - 1) = 1 ∧
        nonworkFlag start isHol j = 1)) := by
    intro j hj
    unfold end3
    rw [hget (j - 2) (by omega), hget (j - 1) (by omega), hget j (by omega)]
    rcases hval (j - 2) with h2 | h2 <;> rcases hval (j - 1) with h1 | h1 <;>
      rcases hval j with h0 | h0 <;> simp [h2, h1, h0]
  have hflag : longWeekendFlag (nonworkFlags start n isHol) i = "да" ↔
      longAny (nonworkFlags start n isHol) i = true := by
    unfold longWeekendFlag
    split
    · simp_all
    · simp_all
  rw [hflag]
  unfold longAny
  simp only [Bool.or_eq_true, Bool.and_eq_true, decide_eq_true_eq]
  constructor
  · rintro ((h | ⟨h1, h⟩) | ⟨h2, h⟩)
    · obtain ⟨hj2, hf⟩ := (hend i le_rfl).1 h
      exact ⟨i, hj2, le_rfl, by omega, hf⟩
    · obtain ⟨hj2, hf⟩ := (hend (i - 1) (by omega)).1 h
      exact ⟨i - 1, hj2, by omega, by omega, hf⟩
    · obtain ⟨hj2, hf⟩ := (hend (i - 2) (by omega)).1 h
      exact ⟨i - 2, hj2, by omega, by omega, hf⟩
  · rintro ⟨j, hj2, hji, hij, hf⟩
    have hcase : j = i ∨ j = i - 1 ∨ j = i - 2 := by omega
    rcases hcase with rfl | hj | hj
    · exact Or.inl (Or.inl ((hend j le_rfl).2 ⟨hj2, hf⟩))
    · subst hj
      exact Or.inl (Or.inr ⟨by omega, (hend (i - 1) (by omega)).2 ⟨hj2, hf⟩⟩)
    · subst hj
      exact Or.inr ⟨by omega, (hend (i - 2) (by omega)).2 ⟨hj2, hf⟩⟩

/-- Witness for `c3_amended`: position 2 of the concrete January 2024
range is flagged "да" and the window Jan 6-8 ends there. -/
theorem c3_amended_witness :
    (2 < 5 ∧ longWeekendFlag c3Flags 2 = "да") ∧
    (longWeekendFlag c3Flags 2 = "да" ↔
      ∃ j, 2 ≤ j ∧ j ≤ 2 ∧ 2 ≤ j + 2 ∧
        nonworkFlag ⟨2024, 1, 6⟩ (fun dt => decide (dt = ⟨2024, 1, 8⟩)) (j - 2) = 1 ∧
        nonworkFlag ⟨2024, 1, 6⟩ (fun dt => decide (dt = ⟨2024, 1, 8⟩)) (j - 1) = 1 ∧
        nonworkFlag ⟨2024, 1, 6⟩ (fun dt => decide (dt = ⟨2024, 1, 8⟩)) j = 1) :=
  ⟨⟨by decide, by decide⟩,
   c3_amended ⟨2024, 1, 6⟩ 5 (fun dt => decide (dt = ⟨2024, 1, 8⟩)) 2 (by decide)⟩

/- Section ======================================================
   Weather Engine, rolling 5-day severity counts
   (`add_weather_compact_cats`, src/main.py lines 675-690).  The base
   frame has one row per (region, day), sorted by (region, day);
   `__is_bad_weather` is the 0/1 flag column.
   ============================================================ -/

structure WxRow where
  region : String
  day : Int
  flag : Nat
deriving DecidableEq

def wxShiftGo (prev : WxRow) : List WxRow → List (Option Nat)
  | [] => []
  | r :: rest => (if r.region = prev.region then some prev.flag else none) :: wxShiftGo r rest

/-- Source `base.groupby(region_col)['__is_bad_weather'].shift(1)` on the
(region, day)-sorted base frame: the previous row's flag when it
belongs to the same region, NaN (`none`) at each region's first row. -/
def wxShift1 : List WxRow → List (Option Nat)
  | [] => []
  | r :: rest => none :: wxShiftGo r rest

/-- Source `.rolling(5, min_periods=1).sum().fillna(0)` applied to the WHOLE
shifted series (src/main.py line 681: the rolling call sits outside
the groupby, so the position window runs across region boundaries):
sum of the non-null values among positions max(0, i-4)..i. -/
def rollSum5 (xs : List (Option Nat)) (i : Nat) : Nat :=
  ((xs.take (i + 1)).drop (i + 1 - 5)).foldl (fun a o => a + o.getD 0) 0

/-- The `bad_roll5` column over the base frame. -/
def badRoll5 (rows : List WxRow) : List Nat :=
  (List.range rows.length).map (rollSum5 (wxShift1 rows))

/-- Source `pd.cut(bad_roll5, bins=[-1, 0, 1, 3, 6], labels=[...])` (lines 682-685). -/
def binBadLast5 (n : Nat) : String :=
  if n = 0 then "0 дней" else if n = 1 then "1 день" else if n ≤ 3 then "2-3 дня" else "4-5 дней"

/-- Failing input for C1: four consecutive bad-weather days in one
region followed by two calm days in the next region, already in the
(region, day)-sorted order the code establishes. -/
def c1Base : List WxRow :=
  [⟨"Брянская область", 1, 1⟩, ⟨"Брянская область", 2, 1⟩, ⟨"Брянская область", 3, 1⟩,
   ⟨"Брянская область", 4, 1⟩, ⟨"Камчатский край", 5, 0⟩, ⟨"Камчатский край", 6, 0⟩]

/-- C1 evaluation at the failing input: both rows of the second region
(positions 4 and 5, whose region has no bad-weather history at all) get
rolling count 3, inherited from the first region's rows, and are
bucketed "2-3 дня" instead of the "0 дней" the claim requires.  The
grouped shift keeps the current day itself out of the window, but the
rolling sum is taken over the globally concatenated shifted series, so
other regions' days do contribute. -/
theorem c1_code_bug_eval :
    badRoll5 c1Base = [0, 1, 2, 3, 3, 3] ∧
    binBadLast5 (flagsGet (badRoll5 c1Base) 4) = "2-3 дня" ∧
    binBadLast5 0 = "0 дней" := by
  decide

/- Section ======================================================
   Astronomical Engine, planetary speeds and retrograde flags
   (`get_planet_details`, src/main.py lines 250-264, and the
   retrograde loop of `get_astro_cats_only`, lines 304-312).
   `lonDeg p t` stands for `np.degrees(ephem.Ecliptic(p).lon)` at
   ephem date `t` — the external ephemeris, an input of the model.
   ============================================================ -/

def PLANETS_TO_TRACK : List String :=
  ["Mercury", "Venus", "Mars", "Jupiter", "Saturn", "Uranus", "Neptune", "Pluto"]

def ASPECT_PLANETS : List String :=
  ["Sun", "Moon", "Mercury", "Venus", "Mars", "Jupiter", "Saturn", "Uranus", "Neptune", "Pluto"]

/-- The wrap step of lines 260-261: one conditional fold into
[-180, 180]. -/
def wrapSpeed (s : ℚ) : ℚ :=
  if 180 < s then s - 360 else if s < -180 then s + 360 else s

/-- The half-day-centered finite difference of the ecliptic longitude
(lines 257-261): longitude at `d + 0.5` minus longitude at `d - 0.5`,
wrapped. -/
def fdSpeed (lonDeg : String → ℚ → ℚ) (p : String) (d : ℚ) : ℚ :=
  wrapSpeed (lonDeg p (d + 1 / 2) - lonDeg p (d - 1 / 2))

/-- Source `get_planet_details` speed: the finite difference is computed only
for bodies other than Sun and Moon (line 256); for Sun and Moon the
speed stays the initialized 0.0 (line 255). -/
def planetSpeed (lonDeg : String → ℚ → ℚ) (p : String) (d : ℚ) : ℚ :=
  if p = "Sun" ∨ p = "Moon" then 0 else fdSpeed lonDeg p d

/-- Source `is_retro_any` (lines 304-310): some tracked planet — the loop
runs over `PLANETS_TO_TRACK`, which excludes Sun and Moon — has
negative speed today. -/
def isRetroAny (lonDeg : String → ℚ → ℚ) (d : ℚ) : Bool :=
  PLANETS_TO_TRACK.any (fun p => decide (planetSpeed lonDeg p d < 0))

/-- A concrete ephemeris in which the Sun advances one degree per day
(the real Sun moves about 0.98 degrees per day, never zero). -/
def c2Lon : String → ℚ → ℚ := fun p t => if p = "Sun" then t else 0

/-- C2 counterexample: the claim quantifies over all 10 tracked bodies,
but for the Sun (and Moon) the code never computes the finite
difference — the speed is the hardcoded 0.0.  With an ephemeris whose
Sun longitude grows 1 degree/day, the finite difference is 1 while the
code reports 0. -/
theorem c2_counterexample :
    ¬ (∀ p ∈ ASPECT_PLANETS, planetSpeed c2Lon p 0 = fdSpeed c2Lon p 0) := by
  intro h
  have hs := h "Sun" (by decide)
  rw [show planetSpeed c2Lon "Sun" 0 = 0 by simp [planetSpeed],
    show fdSpeed c2Lon "Sun" 0 = 1 by norm_num [fdSpeed, wrapSpeed, c2Lon]] at hs
  exact absurd hs (by norm_num)

/-- C2 amended: for every ephemeris and date, each of the 8 planets of
`PLANETS_TO_TRACK` (Mercury through Pluto) gets the wrapped half-day
finite-difference speed; Sun and Moon get speed 0 with no finite
difference taken; and the retrograde flag fires exactly when one of
the 8 tracked planets has negative speed. -/
theorem c2_amended (lonDeg : String → ℚ → ℚ) (d : ℚ) :
    (∀ p ∈ PLANETS_TO_TRACK, planetSpeed lonDeg p d = fdSpeed lonDeg p d) ∧
    planetSpeed lonDeg "Sun" d = 0 ∧ planetSpeed lonDeg "Moon" d = 0 ∧
    (isRetroAny lonDeg d = true ↔ ∃ p ∈ PLANETS_TO_TRACK, planetSpeed lonDeg p d < 0) := by
  refine ⟨?_, by simp [planetSpeed], by simp [planetSpeed], ?_⟩
  · intro p hp
    fin_cases hp <;> simp [planetSpeed]
  · simp [isRetroAny, List.any_eq_true]

/-- Witness for `c2_amended`: Mercury at the `c2Lon` ephemeris, date 0. -/
theorem c2_amended_witness :
    "Mercury" ∈ PLANETS_TO_TRACK ∧ planetSpeed c2Lon "Mercury" 0 = fdSpeed c2Lon "Mercury" 0 :=
  ⟨by decide, (c2_amended c2Lon 0).1 "Mercury" (by decide)⟩

/- Section ======================================================
   Geomagnetic features (`load_magnetic_indices`, src/main.py lines
   713-733, and `add_magnetic_storm_features`, lines 735-770).  Days
   are integers (Moscow calendar days); the Kp JSON file becomes the
   raw list of (day, value) samples.
   ============================================================ -/

/-- Source `classify_storm_level` (lines 748-753). -/
def classifyStormLevel (kp : ℚ) : String :=
  if kp ≤ 4 then "спокойно"
  else if kp ≤ 5 then "слабая буря"
  else if kp ≤ 6 then "умеренная буря"
  else if kp ≤ 8 then "сильная буря"
  else "экстремальная буря"

/-- Source `classify_change` (lines 760-766); `none` is the NaN produced by
the first row's shift. -/
def classifyChange (c : Option ℚ) : String :=
  match c with
  | none => "нет данных"
  | some v =>
    if 3 / 2 < v then "резкий рост"
    else if 1 / 2 < v then "рост"
    else if v < -(3 / 2) then "резкое падение"
    else if v < -(1 / 2) then "падение"
    else "стабильно"

/-- Source `kp_df.groupby('date')['value'].mean()` followed by the left merge
(lines 728 and 745): the daily mean of the raw samples of day `d`,
`none` when the day is absent from the file. -/
def kpDaily (raw : List (Int × ℚ)) (d : Int) : Option ℚ :=
  let vs := (raw.filter (fun p => p.1 = d)).map Prod.snd
  if vs.length = 0 then none else some (vs.sum / (vs.length : ℚ))

/-- Source `pandas` median of the non-null values (used by the
`fillna(median)` imputation, line 746). -/
def pdMedian (xs : List ℚ) : Option ℚ :=
  let s := xs.insertionSort (· ≤ ·)
  let n := xs.length
  if n = 0 then none
  else if n % 2 = 1 then some (s.getD (n / 2) 0)
  else some ((s.getD (n / 2 - 1) 0 + s.getD (n / 2) 0) / 2)

/-- The record-level `Kp_daily` column after the merge by Moscow day
and the median imputation (lines 745-746). -/
def kpFilled (raw : List (Int × ℚ)) (days : List Int) : List ℚ :=
  let col := days.map (kpDaily raw)
  let med := pdMedian (col.filterMap id)
  col.map (fun o => o.getD (med.getD 0))

/-- Source `mag_storm_level_cat` column (line 754). -/
def magLevelCats (kps : List ℚ) : List String := kps.map classifyStormLevel

def magChangeGo (prev : ℚ) : List ℚ → List String
  | [] => []
  | k :: rest => classifyChange (some (k - prev)) :: magChangeGo k rest

/-- Source `mag_storm_change_cat` column (lines 756-767): after sorting the
RECORDS by msk_day, `Kp_prev = Kp_daily.shift(1)` takes the previous
row's Kp — not the previous calendar day's — and the difference is
bucketed by `classify_change`. -/
def magChangeCats : List ℚ → List String
  | [] => []
  | k :: rest => "нет данных" :: magChangeGo k rest

/-- The geomagnetic step of the pipeline on the list of record Moscow
days: sort records by day (line 756; modelled with a stable sort —
ties carry identical Kp values, so tie order cannot affect the
columns), merge and impute the Kp column, then derive both categorical
columns. -/
def magPipeline (raw : List (Int × ℚ)) (recDays : List Int) :
    List Int × List String × List String :=
  let sorted := recDays.insertionSort (· ≤ ·)
  let kps := kpFilled raw sorted
  (sorted, magLevelCats kps, magChangeCats kps)

def c7Raw : List (Int × ℚ) := [(0, 2), (1, 4)]

def c7Days : List Int := [0, 0, 1]

/-- C7 counterexample: with Kp data {day 0 ↦ 2, day 1 ↦ 4} and two
records on day 0 plus one on day 1, the claim makes
`mag_storm_change_cat` a function of the record's day (the day-over-day
change of the daily Kp), so the two day-0 records must agree; but the
code's record-level shift gives the first row "нет данных" and the
second row (same day, same Kp) "стабильно". -/
theorem c7_counterexample :
    (magPipeline c7Raw c7Days).1.getD 0 99 = (magPipeline c7Raw c7Days).1.getD 1 99 ∧
    (magPipeline c7Raw c7Days).2.2.getD 0 "" ≠ (magPipeline c7Raw c7Days).2.2.getD 1 "" := by
  have hsort : c7Days.insertionSort (· ≤ ·) = [0, 0, 1] := by
    norm_num [c7Days, List.insertionSort, List.orderedInsert]
  have hfill : kpFilled c7Raw [0, 0, 1] = [2, 2, 4] := by
    norm_num [kpFilled, kpDaily, c7Raw, List.filter, pdMedian, List.insertionSort,
      List.orderedInsert]
  have hpipe : magPipeline c7Raw c7Days =
      ([0, 0, 1], magLevelCats [2, 2, 4], magChangeCats [2, 2, 4]) := by
    simp only [magPipeline]
    rw [hsort, hfill]
  rw [hpipe]
  have hcats : magChangeCats ([2, 2, 4] : List ℚ) = ["нет данных", "стабильно", "резкий рост"] := by
    norm_num [magChangeCats, magChangeGo, classifyChange]
  rw [hcats]
  exact ⟨by norm_num, by decide⟩

theorem magChangeGo_getD (l : List ℚ) : ∀ (prev : ℚ) (i : Nat), i < l.length →
    (magChangeGo prev l).getD i "" =
      classifyChange (some (l.getD i 0 - (prev :: l).getD i 0)) := by
  induction l with
  | nil => intro prev i hi; simp at hi
  | cons k rest ih =>
    intro prev i hi
    cases i with
    | zero => simp [magChangeGo]
    | succ j =>
      simp only [magChangeGo, List.getD_cons_succ]
      exact ih k j (by simpa using hi)

/-- C7 amended: on the record-level Kp column `kps` of the
msk_day-sorted table, `mag_storm_level_cat` buckets each record's
daily Kp at thresholds 4/5/6/8, and `mag_storm_change_cat` buckets the
difference between CONSECUTIVE RECORDS' Kp values at thresholds
±0.5/±1.5 ("нет данных" for the first record); consequently a record
whose predecessor record shares its Kp value (in particular any record
preceded by another record of the same day) is bucketed "стабильно",
which coincides with the day-over-day daily-Kp change only for the
first record of each day. -/
theorem c7_amended (kps : List ℚ) (i : Nat) (hi : i < kps.length) :
    (magLevelCats kps).getD i "" = classifyStormLevel (kps.getD i 0) ∧
    (magChangeCats kps).getD i "" =
      (if i = 0 then "нет данных"
       else classifyChange (some (kps.getD i 0 - kps.getD (i - 1) 0))) ∧
    (0 < i → kps.getD i 0 = kps.getD (i - 1) 0 →
      (magChangeCats kps).getD i "" = "стабильно") := by
  have hlevel : (magLevelCats kps).getD i "" = classifyStormLevel (kps.getD i 0) := by
    rw [List.getD_eq_getElem?_getD, List.getD_eq_getElem?_getD, magLevelCats,
      List.getElem?_map, List.getElem?_eq_getElem hi]
    simp
  have hchange : (magChangeCats kps).getD i "" =
      (if i = 0 then "нет данных"
       else classifyChange (some (kps.getD i 0 - kps.getD (i - 1) 0))) := by
    cases kps with
    | nil => simp at hi
    | cons k rest =>
      cases i with
      | zero => simp [magChangeCats]
      | succ j =>
        simp only [magChangeCats, List.getD_cons_succ, Nat.succ_ne_zero, if_false,
          Nat.add_sub_cancel]
        exact magChangeGo_getD rest k j (by simpa using hi)
  refine ⟨hlevel, hchange, ?_⟩
  intro hpos heq
  rw [hchange, if_neg (by omega), heq]
  norm_num [classifyChange]

/-- Witness for `c7_amended`: the concrete Kp column [2, 2, 4] at
record index 1. -/
theorem c7_amended_witness :
    1 < ([2, 2, 4] : List ℚ).length ∧
    ((magLevelCats [2, 2, 4]).getD 1 "" = classifyStormLevel (([2, 2, 4] : List ℚ).getD 1 0) ∧
     (magChangeCats [2, 2, 4]).getD 1 "" =
       (if 1 = 0 then "нет данных"
        else classifyChange (some (([2, 2, 4] : List ℚ).getD 1 0 - ([2, 2, 4] : List ℚ).getD 0 0))) ∧
     (0 < 1 → ([2, 2, 4] : List ℚ).getD 1 0 = ([2, 2, 4] : List ℚ).getD 0 0 →
       (magChangeCats [2, 2, 4]).getD 1 "" = "стабильно")) :=
  ⟨by decide, c7_amended [2, 2, 4] 1 (by decide)⟩

/- Section ======================================================
   Orchestrator row effect.  Two steps of `enrich_data_full` touch the
   row set or order.  First, the weather merge-back
   (`add_weather_compact_cats`, src/main.py lines 677-680 and 701-703)
   deduplicates its base frame on (region_std, day_local, msk_day) but
   joins it back on (region_std, day_local) only, so a
   (region, day_local) pair spanning several Moscow days DUPLICATES
   its records.  Second, the geomagnetic step (lines 756-757) runs
   `df = df.sort_values(msk_day).reset_index(drop=True)`; every later
   step (the tz/day_local merge of the tension index and the final
   column selection) is an order-preserving left join on unique keys,
   so the returned table keeps that order.  A row is its Moscow day
   plus an opaque payload; the pandas index is modelled as an explicit
   label.  `sort_values` uses an unstable quicksort whose tie order is
   unspecified; the stable insertion sort below is one valid
   refinement of it.
   ============================================================ -/

structure PipeRow where
  mskDay : Int
  payload : String
deriving DecidableEq

def rowLe (a b : PipeRow) : Prop := a.mskDay ≤ b.mskDay

instance : DecidableRel rowLe := fun a b => inferInstanceAs (Decidable (a.mskDay ≤ b.mskDay))

instance : IsTotal PipeRow rowLe := ⟨fun a b => Int.le_total a.mskDay b.mskDay⟩

instance : IsTrans PipeRow rowLe := ⟨fun _ _ _ h1 h2 => le_trans h1 h2⟩

/-- Source `df.sort_values(date_col_msk)` (line 756). -/
def sortByMskDay (rows : List PipeRow) : List PipeRow := rows.insertionSort rowLe

/-- Source `reset_index(drop=True)` (line 756): a fresh RangeIndex 0..n-1. -/
def resetIndex (rows : List PipeRow) : List (Nat × PipeRow) :=
  (List.range rows.length).zip rows

/-- The sort-and-reindex step of line 756 applied to the frame that
reaches it (this is NOT the whole enrichment's row effect: the weather
merge-back modelled by `wxMergeBack` below can first duplicate rows of
the frame). -/
def finalRowOrder (rows : List (Nat × PipeRow)) : List (Nat × PipeRow) :=
  resetIndex (sortByMskDay (rows.map Prod.snd))

/-- An input table that is neither msk_day-sorted nor range-indexed. -/
def c10Ex : List (Nat × PipeRow) := [(7, ⟨5, "первый"⟩), (3, ⟨2, "второй"⟩)]

/-- One row of the weather base frame, keyed as the code keys it: the
dedup at line 680 runs over (region_std, day_local, msk_day) plus the
two 0/1 flags, and the flags are functions of (region_std, day_local)
— they come from the weather columns merged on that pair — so the
(region, day_local, msk_day) triple determines the full dedup key. -/
structure WxKeyRow where
  region : String
  dayLocal : Int
  mskDay : Int
deriving DecidableEq

/-- Source `drop_duplicates()` at line 680: keep the first occurrence
of every distinct row value. -/
def dedupRows (seen : List WxKeyRow) : List WxKeyRow → List WxKeyRow
  | [] => []
  | r :: rest =>
    if r ∈ seen then dedupRows seen rest else r :: dedupRows (r :: seen) rest

def charListLt : List Char → List Char → Bool
  | [], [] => false
  | [], _ :: _ => true
  | _ :: _, [] => false
  | a :: as, b :: bs => a < b || (a = b && charListLt as bs)

/-- Lexicographic string order (kernel-computable model of the pandas
string order used by `sort_values`). -/
def strLtB (s t : String) : Bool := charListLt s.toList t.toList

def wxBaseLeB (a b : WxKeyRow) : Bool :=
  strLtB a.region b.region || (a.region == b.region && a.dayLocal ≤ b.dayLocal)

def wxBaseLe (a b : WxKeyRow) : Prop := wxBaseLeB a b = true

instance : DecidableRel wxBaseLe := fun a b => inferInstanceAs (Decidable (wxBaseLeB a b = true))

/-- Source `base = out[base_cols].drop_duplicates().sort_values([region_col, date_col])`
(line 680). -/
def wxBase (rows : List WxKeyRow) : List WxKeyRow :=
  (dedupRows [] rows).insertionSort wxBaseLe

/-- The base rows a record joins with at lines 701-703: the merge key
is (region_std, day_local) ONLY — msk_day is not part of it. -/
def mergeMatches (base : List WxKeyRow) (r : WxKeyRow) : List WxKeyRow :=
  base.filter (fun b => b.region == r.region && b.dayLocal == r.dayLocal)

/-- Source `out.merge(base[[region_col, date_col, ...]], on=[region_col, date_col], how='left')`
(lines 701-703): each record reappears once per matching base row
(once with null features when nothing matches). -/
def wxMergeBack (rows base : List WxKeyRow) : List WxKeyRow :=
  (rows.map (fun r =>
    if (mergeMatches base r).isEmpty then [r]
    else (mergeMatches base r).map (fun _ => r))).flatten

/-- Two Камчатский-край records sharing day_local 2024-03-11 across
two Moscow days (business times 2024-03-10 20:00 and 2024-03-11 10:00
Moscow; days encoded as integers, 10 = 2024-03-10, 11 = 2024-03-11). -/
def c10wxRows : List WxKeyRow :=
  [⟨"Камчатский край", 11, 10⟩, ⟨"Камчатский край", 11, 11⟩]

/-- C10 counterexample: the enrichment does NOT always keep the row
count — the base frame holds TWO rows for the key
(Камчатский край, 2024-03-11), one per Moscow day, and the merge back
on (region, day_local) alone matches each of the two records with
both, returning 4 rows for 2 input rows. -/
theorem c10_counterexample :
    (wxMergeBack c10wxRows (wxBase c10wxRows)).length = 4 ∧
    c10wxRows.length = 2 ∧
    (wxMergeBack c10wxRows (wxBase c10wxRows)).length ≠ c10wxRows.length := by
  decide

theorem dedupRows_mem (l : List WxKeyRow) : ∀ (seen : List WxKeyRow) (r : WxKeyRow),
    r ∈ l → r ∈ seen ∨ r ∈ dedupRows seen l := by
  induction l with
  | nil => intro seen r hr; exact absurd hr (List.not_mem_nil r)
  | cons a t ih =>
    intro seen r hr
    rw [dedupRows]
    rcases List.mem_cons.1 hr with rfl | hrt
    · by_cases ha : r ∈ seen
      · rw [if_pos ha]; exact Or.inl ha
      · rw [if_neg ha]; exact Or.inr (List.mem_cons_self r _)
    · by_cases ha : a ∈ seen
      · rw [if_pos ha]; exact ih seen r hrt
      · rw [if_neg ha]
        rcases ih (a :: seen) r hrt with h | h
        · rcases List.mem_cons.1 h with rfl | h2
          · exact Or.inr (List.mem_cons_self r _)
          · exact Or.inl h2
        · exact Or.inr (List.mem_cons_of_mem a h)

theorem dedupRows_nodup (l : List WxKeyRow) : ∀ seen : List WxKeyRow,
    (dedupRows seen l).Nodup ∧ ∀ r ∈ dedupRows seen l, r ∉ seen := by
  induction l with
  | nil =>
    intro seen
    exact ⟨List.nodup_nil, fun r hr => absurd hr (List.not_mem_nil r)⟩
  | cons a t ih =>
    intro seen
    rw [dedupRows]
    by_cases ha : a ∈ seen
    · rw [if_pos ha]; exact ih seen
    · rw [if_neg ha]
      obtain ⟨hnd, hnotin⟩ := ih (a :: seen)
      refine ⟨List.nodup_cons.2 ⟨?_, hnd⟩, ?_⟩
      · intro hmem
        exact absurd (List.mem_cons_self a seen) (hnotin a hmem)
      · intro r hr
        rcases List.mem_cons.1 hr with rfl | h2
        · exact ha
        · intro hseen
          exact hnotin r h2 (List.mem_cons_of_mem a hseen)

theorem flattenSingletons {α : Type} (F : α → List α) (l : List α)
    (h : ∀ r ∈ l, F r = [r]) : (l.map F).flatten = l := by
  induction l with
  | nil => rfl
  | cons a t ih =>
    rw [List.map_cons, List.flatten_cons, h a (List.mem_cons_self a t),
      ih (fun r hr => h r (List.mem_cons_of_mem a hr))]
    rfl

/-- C10 amended: the frame reaching line 756 comes back sorted weakly
ascending by Moscow day under a freshly reset 0..n-1 index, as a
permutation of that frame — so the input's original order and index
are not in general preserved (concrete second conjunct) — but the
enrichment does not always preserve the row COUNT: rows are neither
added nor removed exactly in the benign case, when no (region,
day_local) pair of the weather base spans more than one Moscow day
(third conjunct: with base keys unique, the lines-701-703 merge back
returns the records unchanged). -/
theorem c10_amended :
    (∀ rows : List (Nat × PipeRow),
      ((finalRowOrder rows).map Prod.snd).Perm (rows.map Prod.snd) ∧
      List.Sorted rowLe ((finalRowOrder rows).map Prod.snd) ∧
      (finalRowOrder rows).map Prod.fst = List.range rows.length) ∧
    ((finalRowOrder c10Ex).map Prod.snd ≠ c10Ex.map Prod.snd) ∧
    (∀ rows : List WxKeyRow,
      (∀ b1 ∈ wxBase rows, ∀ b2 ∈ wxBase rows,
        b1.region = b2.region → b1.dayLocal = b2.dayLocal → b1 = b2) →
      wxMergeBack rows (wxBase rows) = rows) := by
  refine ⟨?_, by decide, ?_⟩
  · intro rows
    have hperm : (sortByMskDay (rows.map Prod.snd)).Perm (rows.map Prod.snd) :=
      List.perm_insertionSort rowLe _
    have hlen : (sortByMskDay (rows.map Prod.snd)).length = rows.length := by
      rw [hperm.length_eq, List.length_map]
    have hsnd : (finalRowOrder rows).map Prod.snd = sortByMskDay (rows.map Prod.snd) := by
      simp only [finalRowOrder, resetIndex]
      exact List.map_snd_zip _ _ (by simp)
    refine ⟨?_, ?_, ?_⟩
    · rw [hsnd]; exact hperm
    · rw [hsnd]; exact List.sorted_insertionSort rowLe _
    · simp only [finalRowOrder, resetIndex]
      rw [List.map_fst_zip _ _ (by simp), hlen]
  · intro rows huniq
    have hndbase : (wxBase rows).Nodup :=
      ((List.perm_insertionSort wxBaseLe _).nodup_iff).2 (dedupRows_nodup rows []).1
    unfold wxMergeBack
    refine flattenSingletons _ rows ?_
    intro r hr
    have hrbase : r ∈ wxBase rows := by
      rcases dedupRows_mem rows [] r hr with h | h
      · exact absurd h (List.not_mem_nil r)
      · exact ((List.perm_insertionSort wxBaseLe _).mem_iff).2 h
    have hrm : r ∈ mergeMatches (wxBase rows) r := by
      rw [mergeMatches, List.mem_filter]
      exact ⟨hrbase, by simp⟩
    cases hms : mergeMatches (wxBase rows) r with
    | nil => rw [hms] at hrm; exact absurd hrm (List.not_mem_nil r)
    | cons b rest =>
      have hrest : rest = [] := by
        cases rest with
        | nil => rfl
        | cons b2 rest2 =>
          have hb : b ∈ mergeMatches (wxBase rows) r := by
            rw [hms]; exact List.mem_cons_self b _
          have hb2 : b2 ∈ mergeMatches (wxBase rows) r := by
            rw [hms]; exact List.mem_cons_of_mem b (List.mem_cons_self b2 _)
          rw [mergeMatches, List.mem_filter] at hb hb2
          obtain ⟨hbB, hbP⟩ := hb
          obtain ⟨hb2B, hb2P⟩ := hb2
          simp only [Bool.and_eq_true, beq_iff_eq] at hbP hb2P
          have hbb2 : b = b2 :=
            huniq b hbB b2 hb2B (hbP.1.trans hb2P.1.symm) (hbP.2.trans hb2P.2.symm)
          have hnd : (mergeMatches (wxBase rows) r).Nodup := hndbase.filter _
          rw [hms] at hnd
          rcases List.nodup_cons.1 hnd with ⟨hnotin, _⟩
          exact absurd (hbb2 ▸ List.mem_cons_self b2 rest2) hnotin
      subst hrest
      simp

def c10wOk : List WxKeyRow := [⟨"Москва", 5, 5⟩, ⟨"Москва", 6, 6⟩]

/-- Witness for `c10_amended`: on a table whose weather base is unique
per (region, day_local), the merge back returns the records unchanged. -/
theorem c10_amended_witness :
    wxMergeBack c10wOk (wxBase c10wOk) = c10wOk :=
  c10_amended.2.2 c10wOk (by decide)

/- Section ======================================================
   Astronomical Engine memoization (src/main.py line 266:
   `@lru_cache(maxsize=50000)` on `get_astro_cats_only`).  The pure
   computation is the parameter `f`; the cache is an explicit
   most-recent-first association list with LRU capacity eviction.
   ============================================================ -/

structure AstroKey where
  day : CalDate
  tz : String
deriving DecidableEq

structure MemoCache (V : Type) where
  entries : List (AstroKey × V)
  cap : Nat

def cacheFind {V : Type} (es : List (AstroKey × V)) (k : AstroKey) : Option V :=
  match es with
  | [] => none
  | p :: rest => if p.1 = k then some p.2 else cacheFind rest k

def cacheDrop {V : Type} (es : List (AstroKey × V)) (k : AstroKey) : List (AstroKey × V) :=
  match es with
  | [] => []
  | p :: rest => if p.1 = k then cacheDrop rest k else p :: cacheDrop rest k

/-- One call through the lru_cache wrapper: on a hit return the cached
value and move the key to the front; on a miss compute `f k`, insert
at the front and evict beyond the capacity (least recently used last). -/
def memoCall {V : Type} (f : AstroKey → V) (c : MemoCache V) (k : AstroKey) :
    V × MemoCache V :=
  match cacheFind c.entries k with
  | some v => (v, ⟨(k, v) :: cacheDrop c.entries k, c.cap⟩)
  | none => (f k, ⟨((k, f k) :: c.entries).take c.cap, c.cap⟩)

/-- Cache coherence: every cached value is the pure function's value. -/
def CacheOk {V : Type} (f : AstroKey → V) (c : MemoCache V) : Prop :=
  ∀ p ∈ c.entries, p.2 = f p.1

theorem cacheFind_ok {V : Type} (f : AstroKey → V) (k : AstroKey) (v : V) :
    ∀ es : List (AstroKey × V), (∀ p ∈ es, p.2 = f p.1) → cacheFind es k = some v → v = f k := by
  intro es
  induction es with
  | nil => intro _ h; simp [cacheFind] at h
  | cons p rest ih =>
    intro hok h
    by_cases hp : p.1 = k
    · rw [cacheFind, if_pos hp] at h
      have := hok p (List.mem_cons_self p rest)
      cases h
      rw [this, hp]
    · rw [cacheFind, if_neg hp] at h
      exact ih (fun q hq => hok q (List.mem_cons_of_mem p hq)) h

theorem cacheDrop_subset {V : Type} (k : AstroKey) :
    ∀ (es : List (AstroKey × V)) (p : AstroKey × V), p ∈ cacheDrop es k → p ∈ es := by
  intro es
  induction es with
  | nil => intro p h; simp [cacheDrop] at h
  | cons q rest ih =>
    intro p h
    rw [cacheDrop] at h
    by_cases hq : q.1 = k
    · rw [if_pos hq] at h
      exact List.mem_cons_of_mem q (ih p h)
    · rw [if_neg hq] at h
      rcases List.mem_cons.1 h with h' | h'
      · exact h' ▸ List.mem_cons_self q rest
      · exact List.mem_cons_of_mem q (ih p h')

/-- C8: the memoized Astronomical Engine is deterministic.  Whenever
the cache is coherent, a call returns exactly the pure value `f k`,
the cache stays coherent (capacity eviction and LRU reordering never
corrupt it), and an immediately repeated call with the identical
(date, timezone) key returns the identical output. -/
theorem c8_memo_deterministic {V : Type} (f : AstroKey → V) (c : MemoCache V)
    (k : AstroKey) (hok : CacheOk f c) :
    (memoCall f c k).1 = f k ∧ CacheOk f (memoCall f c k).2 ∧
    (memoCall f (memoCall f c k).2 k).1 = (memoCall f c k).1 := by
  have hfst : ∀ (c' : MemoCache V), CacheOk f c' → (memoCall f c' k).1 = f k := by
    intro c' hok'
    unfold memoCall
    cases h : cacheFind c'.entries k with
    | none => rfl
    | some v => exact cacheFind_ok f k v c'.entries hok' h
  have hsnd : CacheOk f (memoCall f c k).2 := by
    unfold memoCall
    cases h : cacheFind c.entries k with
    | none =>
      intro p hp
      rcases List.mem_cons.1 (List.mem_of_mem_take hp) with h' | h'
      · rw [h']
      · exact hok p h'
    | some v =>
      intro p hp
      rcases List.mem_cons.1 hp with h' | h'
      · rw [h']
        exact cacheFind_ok f k v c.entries hok h
      · exact hok p (cacheDrop_subset k c.entries p h')
  exact ⟨hfst c hok, hsnd, by rw [hfst _ hsnd, hfst c hok]⟩

def c8F : AstroKey → String := fun _ => "Рыбы"

def c8C : MemoCache String := ⟨[], 50000⟩

def c8K : AstroKey := ⟨⟨2024, 3, 20⟩, "Europe/Moscow"⟩

/-- Witness for `c8_memo_deterministic` at an empty coherent cache of
capacity 50000 and the key (2024-03-20, Europe/Moscow). -/
theorem c8_memo_witness :
    CacheOk c8F c8C ∧
    ((memoCall c8F c8C c8K).1 = c8F c8K ∧ CacheOk c8F (memoCall c8F c8C c8K).2 ∧
     (memoCall c8F (memoCall c8F c8C c8K).2 c8K).1 = (memoCall c8F c8C c8K).1) :=
  ⟨fun p hp => absurd hp (List.not_mem_nil p),
   c8_memo_deterministic c8F c8C c8K (fun p hp => absurd hp (List.not_mem_nil p))⟩

/- Section ======================================================
   Column preservation in the orchestrator (src/main.py lines
   1110-1118 and 1196-1200): `initial_cols` are always kept in the
   final selection, but line 1118 overwrites the business-timestamp
   column in place with `pd.to_datetime(df[date_col], errors='coerce')`.
   `parse` is the external pandas datetime parser (coercing failures
   to null); values of the other original columns are opaque strings.
   ============================================================ -/

inductive PdVal where
  | vStr : String → PdVal
  | vDt : Option MskDateTime → PdVal
deriving DecidableEq

structure SrcRow where
  businessDt : PdVal
  region : String
  others : List (String × String)
deriving DecidableEq

structure EnrichedCols where
  businessDt : PdVal
  region : String
  others : List (String × String)
  regionStdCol : String
  tzCol : String
deriving DecidableEq

/-- Source `pd.to_datetime(..., errors='coerce')` on one cell: a string cell
goes through the parser, an already-datetime cell stays. -/
def pdToDatetime (parse : String → Option MskDateTime) : PdVal → Option MskDateTime
  | .vStr s => parse s
  | .vDt t => t

/-- Per-record column effect of `enrich_data_full`: the original
region and all other original columns are carried through to the final
selection unchanged, while the business-timestamp column is replaced
by its parsed value (line 1118); derived columns are added alongside. -/
def enrichCols (parse : String → Option MskDateTime) (tfResult : String → Option String)
    (r : SrcRow) : EnrichedCols :=
  { businessDt := .vDt (pdToDatetime parse r.businessDt)
    region := r.region
    others := r.others
    regionStdCol := regionStd r.region
    tzCol := regionToTz tfResult (regionStd r.region) }

def c9Parse : String → Option MskDateTime := fun _ => none

def c9Row : SrcRow := ⟨.vStr "2024-03-20 15:00:00", "Москва", [("оценка", "9")]⟩

/-- C9 counterexample: not every original column keeps its per-record
values — for a table whose business-timestamp column holds strings,
the column comes back as parsed datetimes (`.vDt`), not the original
strings (`.vStr`), whatever the parser returns. -/
theorem c9_counterexample :
    ¬ (∀ r : SrcRow,
        (enrichCols c9Parse tfNone r).businessDt = r.businessDt ∧
        (enrichCols c9Parse tfNone r).region = r.region ∧
        (enrichCols c9Parse tfNone r).others = r.others) := by
  intro h
  exact absurd (h c9Row).1 (by decide)

/-- C9 amended: every original input column except the business
timestamp is present in the enriched table with its per-record values
unchanged alongside the derived columns; the business-timestamp column
is overwritten by its coerced datetime parse, and is itself unchanged
exactly when it already holds datetimes. -/
theorem c9_amended (parse : String → Option MskDateTime) (tfResult : String → Option String)
    (r : SrcRow) :
    (enrichCols parse tfResult r).region = r.region ∧
    (enrichCols parse tfResult r).others = r.others ∧
    (enrichCols parse tfResult r).businessDt = .vDt (pdToDatetime parse r.businessDt) ∧
    (∀ t : Option MskDateTime, r.businessDt = .vDt t →
      (enrichCols parse tfResult r).businessDt = r.businessDt) := by
  refine ⟨rfl, rfl, rfl, ?_⟩
  intro t ht
  simp [enrichCols, pdToDatetime, ht]

def c9RowDt : SrcRow := ⟨.vDt (some ⟨⟨2024, 3, 20⟩, 15⟩), "Москва", []⟩

/-- Witness for `c9_amended`: a record whose timestamp column already
holds a datetime keeps it unchanged. -/
theorem c9_amended_witness :
    (enrichCols c9Parse tfNone c9RowDt).businessDt = c9RowDt.businessDt :=
  (c9_amended c9Parse tfNone c9RowDt).2.2.2 (some ⟨⟨2024, 3, 20⟩, 15⟩) rfl

/- Section ======================================================
   News Engine (src/main.py lines 791-905): topic classification by
   ordered substring matching, and the Security/Emergency
   deduplication with its text normalization.  The four regex stages
   of `norm_event` (line 893-899) are embedded one by one; the
   word-boundary verb pattern `\b(захват|взятие?|...|стаб\w*)\b` is
   embedded at the level of maximal word-character runs, which the
   boundary anchors make exact: an alternative without `\w*` must
   equal a whole run, one with `\w*` must be a prefix of a run.
   ============================================================ -/

/-- Python `str.lower()` for the alphabets in play (ASCII and
Cyrillic, the only letters in the repository's text constants). -/
def charLowerRu (c : Char) : Char :=
  if 'A' ≤ c ∧ c ≤ 'Z' then Char.ofNat (c.toNat + 32)
  else if 'А' ≤ c ∧ c ≤ 'Я' then Char.ofNat (c.toNat + 32)
  else if c = 'Ё' then 'ё'
  else c

def pyLower (s : String) : String := String.mk (s.toList.map charLowerRu)

def listStartsWith : List Char → List Char → Bool
  | [], _ => true
  | _ :: _, [] => false
  | p :: ps, t :: ts => p = t && listStartsWith ps ts

def listHasSub (pat : List Char) : List Char → Bool
  | [] => listStartsWith pat []
  | c :: rest => listStartsWith pat (c :: rest) || listHasSub pat rest

/-- Python `pat in s` substring test. -/
def strHasSub (s pat : String) : Bool := listHasSub pat.toList s.toList

/-- Python `str.replace(pat, rep)`: all non-overlapping occurrences,
left to right (fuel-driven scan; the fuel is the text length). -/
def replaceSubGo (pat rep : List Char) : Nat → List Char → List Char
  | 0, l => l
  | _ + 1, [] => []
  | fuel + 1, c :: rest =>
    if listStartsWith pat (c :: rest) then
      rep ++ replaceSubGo pat rep fuel ((c :: rest).drop pat.length)
    else c :: replaceSubGo pat rep fuel rest

def replaceSub (s pat rep : String) : String :=
  String.mk (replaceSubGo pat.toList rep.toList s.toList.length s.toList)

/-- Python `\s` for the characters in play. -/
def isPySpace (c : Char) : Bool := c = ' ' ∨ c = '\t' ∨ c = '\n' ∨ c = '\r'

/-- Replace every maximal run of `p`-characters by one `rep`
character (the shape of `re.sub(r'X+', rep, s)`). -/
def collapseRuns (p : Char → Bool) (rep : Char) : Nat → List Char → List Char
  | 0, l => l
  | _ + 1, [] => []
  | fuel + 1, c :: rest =>
    if p c then rep :: collapseRuns p rep fuel ((c :: rest).dropWhile p)
    else c :: collapseRuns p rep fuel rest

/-- Python `.strip()` relative to a character class. -/
def stripEnds (p : Char → Bool) (l : List Char) : List Char :=
  ((l.dropWhile p).reverse.dropWhile p).reverse

/-- Source `_normalize_cat_text` (lines 833-838). -/
def normalizeCatText (s : String) : String :=
  let s1 := replaceSub (replaceSub (pyLower s) "междунар." "международн") "чп" "чс"
  String.mk (stripEnds isPySpace (collapseRuns isPySpace ' ' s1.toList.length s1.toList))

/-- Source `NEWS_GROUP_PATTERNS` (lines 791-818), in the dictionary's
iteration order. -/
def NEWS_GROUP_PATTERNS : List (String × List String) := [
  ("Безопасность/ЧС",
    ["военные действ", "боевые", "бои", "удар", "контрнаступ", "взят", "захват", "вывод войск", "дрг",
     "безопасност", "теракт", "чс", "чп", "взрыв", "обстрел", "ракет", "артилл", "штурм", "прорыв",
     "освобожд", "паводк", "происшеств", "дрон", "бпла", "диверс"]),
  ("Санкции/финансы",
    ["санкци", "эмбарго", "swift", "свифт", "нкц", "клиринг", "рейтинг", "рейтинга", "мус", "валют", "курс",
     "мосбирж", "мособирж", "спб-биржа", "бирж", "банк"]),
  ("Денежная политика", ["ключевая ставка", "денежная политика"]),
  ("IT/платежи/сбои",
    ["платеж", "финтех", "сбп", "mir pay", "кошелек", "кошельк", "push", "пуш", "ddos", "сбой",
     "онлайн", "it", "интернет", "соцсеть", "стрим", "dpi", "dnssec"]),
  ("Энергетика/рынки",
    ["энергетик", "нефть", "газ", "сп-1", "северн", "газпром", "опек", "алмаз", "топлив", "экспорт топлив"]),
  ("Экономика/налоги/бюджет",
    ["экономик", "бюджет", "налог", "макро", "форум", "пмэф", "вэф", "ипотек", "торговля", "импорт", "экспорт",
     "логистик", "компани", "промышленност", "металл", "апк", "сельхоз", "опк"]),
  ("Политика/право/выборы",
    ["политика", "право", "закон", "выбор", "междунар", "нато", "брикс", "саммит", "шос", "совет европы",
     "кадры", "территор", "оборона", "призыв", "мобилиз", "инаугурац"]),
  ("Праздники/общество", ["праздник", "общество", "социальн", "мрот", "жкх", "культур", "парад", "траур"])]

def findGroup (s : String) : List (String × List String) → String
  | [] => "Экономика/налоги/бюджет"
  | (grp, pats) :: rest =>
    if pats.any (fun pat => strHasSub s pat) then grp else findGroup s rest

/-- Source `_map_news_group` (lines 840-846): first group (in dictionary
order) with a matching substring wins, default economy group. -/
def mapNewsGroup (catRaw eventText : String) : String :=
  let s := pyLower (catRaw ++ " " ++ eventText)
  let s := replaceSub (replaceSub s "междунар." "международн") "чп" "чс"
  findGroup s NEWS_GROUP_PATTERNS

/-- Suffix after the first closing parenthesis, if any. -/
def findClose : List Char → Option (List Char)
  | [] => none
  | c :: rest => if c = ')' then some rest else findClose rest

/-- Stage 1 of `norm_event`: `re.sub(r'\(.*?\)', ' ', s)` — each
non-greedy parenthesized span becomes one space, an unmatched opening
parenthesis stays. -/
def stripParensGo : Nat → List Char → List Char
  | 0, l => l
  | _ + 1, [] => []
  | fuel + 1, c :: rest =>
    if c = '(' then
      match findClose rest with
      | some rest2 => ' ' :: stripParensGo fuel rest2
      | none => c :: stripParensGo fuel rest
    else c :: stripParensGo fuel rest

/-- Python `\w` (letters, digits, underscore) for the alphabets in
play. -/
def isWordChar (c : Char) : Bool :=
  ('a' ≤ c ∧ c ≤ 'z') ∨ ('A' ≤ c ∧ c ≤ 'Z') ∨ ('0' ≤ c ∧ c ≤ '9') ∨ c = '_' ∨
  ('а' ≤ c ∧ c ≤ 'я') ∨ ('А' ≤ c ∧ c ≤ 'Я') ∨ c = 'ё' ∨ c = 'Ё'

/-- Alternatives of the verb pattern that carry no `\w*`: with the
surrounding `\b..\b` they must match a whole word run ("взятие?"
accepts both "взяти" and "взятие"). -/
def SEC_VERB_WHOLE : List String :=
  ["захват", "взяти", "взятие", "бои", "продолжение", "попытка", "провал", "новая", "после"]

/-- Alternatives ending in `\w*`: they must be a prefix of a word run. -/
def SEC_VERB_STAR : List String :=
  ["освобожден", "освобожд", "обстрел", "штурм", "прорыв", "контр", "интенсив", "стаб"]

def isVerbRun (w : List Char) : Bool :=
  SEC_VERB_WHOLE.any (fun v => v.toList == w) ||
  SEC_VERB_STAR.any (fun v => listStartsWith v.toList w)

/-- Stage 2 of `norm_event` (line 896): each maximal word run matching
the verb pattern becomes one space. -/
def removeVerbRuns : Nat → List Char → List Char
  | 0, l => l
  | _ + 1, [] => []
  | fuel + 1, c :: rest =>
    if isWordChar c then
      (if isVerbRun ((c :: rest).takeWhile isWordChar) then [' ']
       else (c :: rest).takeWhile isWordChar) ++
        removeVerbRuns fuel ((c :: rest).dropWhile isWordChar)
    else c :: removeVerbRuns fuel rest

/-- The character class of stage 3, `[^а-яa-z0-9]` (note: the Python
range а-я excludes ё, and capitals are already lowered). -/
def isAlnumRuLower (c : Char) : Bool :=
  ('a' ≤ c ∧ c ≤ 'z') ∨ ('а' ≤ c ∧ c ≤ 'я') ∨ ('0' ≤ c ∧ c ≤ '9')

/-- Source `norm_event` (lines 893-899): lower, drop parenthesized spans,
drop update-verb words, collapse non-alphanumeric runs, collapse
whitespace and strip. -/
def normEvent (txt : String) : String :=
  let l0 := (pyLower txt).toList
  let l1 := stripParensGo l0.length l0
  let l2 := removeVerbRuns l1.length l1
  let l3 := collapseRuns (fun c => !(isAlnumRuLower c)) ' ' l2.length l2
  let l4 := collapseRuns isPySpace ' ' l3.length l3
  String.mk (stripEnds isPySpace l4)

structure NewsEvent where
  eventDate : Int
  event : String
  catRaw : String
deriving DecidableEq

structure TaggedEvent where
  eventDate : Int
  event : String
  catRaw : String
  group : String
deriving DecidableEq

/-- Event tagging of `_load_events_from_tsv` (lines 883-884):
normalize the raw category, then classify. -/
def tagEvents (evs : List NewsEvent) : List TaggedEvent :=
  evs.map (fun e => ⟨e.eventDate, e.event, e.catRaw, mapNewsGroup (normalizeCatText e.catRaw) e.event⟩)

/-- Source `drop_duplicates(subset=['event_date','event_norm'])`: keep the
first row of each (date, normalized text) pair. -/
def dedupKeyGo (seen : List (Int × String)) : List TaggedEvent → List TaggedEvent
  | [] => []
  | e :: rest =>
    if seen.contains (e.eventDate, normEvent e.event) then dedupKeyGo seen rest
    else e :: dedupKeyGo ((e.eventDate, normEvent e.event) :: seen) rest

/-- Source `_compress_security_updates` (lines 887-905): reassemble the
non-security rows unchanged, and the security rows deduplicated by
(date, `norm_event`). -/
def compressSecurity (evs : List TaggedEvent) : List TaggedEvent :=
  evs.filter (fun e => !(e.group == "Безопасность/ЧС")) ++
    dedupKeyGo [] (evs.filter (fun e => e.group == "Безопасность/ЧС"))

def secEntries (evs : List TaggedEvent) : List TaggedEvent :=
  evs.filter (fun e => e.group == "Безопасность/ЧС")

/-- The spec scenario catalog: the two Belgorod shelling entries on
one date. -/
def c5Catalog : List NewsEvent :=
  [⟨0, "Обстрел в Белгороде", "Неизвестно"⟩, ⟨0, "обстрел Белгорода (повтор)", "Неизвестно"⟩]

/-- C5 counterexample: the two events do NOT collapse into a single
Security/Emergency entry — both survive deduplication, because their
normalized texts differ ("в белгороде" with the preposition kept,
versus "белгорода" in a different grammatical case). -/
theorem c5_counterexample :
    (secEntries (compressSecurity (tagEvents c5Catalog))).length ≠ 1 := by
  decide

/-- C5 amended: both events are classified Security/Emergency, but the
normalization maps them to the distinct keys "в белгороде" and
"белгорода" (the verb stripping removes only the update verbs, not
prepositions, and no case folding beyond lowercasing happens), so the
deduplication — which drops only exact duplicate (date, normalized
text) pairs within the Security/Emergency group — keeps two entries
for that date. -/
theorem c5_amended :
    normEvent "Обстрел в Белгороде" = "в белгороде" ∧
    normEvent "обстрел Белгорода (повтор)" = "белгорода" ∧
    mapNewsGroup (normalizeCatText "Неизвестно") "Обстрел в Белгороде" = "Безопасность/ЧС" ∧
    mapNewsGroup (normalizeCatText "Неизвестно") "обстрел Белгорода (повтор)" = "Безопасность/ЧС" ∧
    (secEntries (compressSecurity (tagEvents c5Catalog))).length = 2 := by
  exact ⟨rfl, rfl, rfl, rfl, rfl⟩

end NpsCtx
